import Mathlib

/-!
Verification of the GitHub backport / cherry-pick command modules.

The development shallowly embeds the two command modules
(`github/backport/__init__.py`, API-based, and `github/cherry_pick/__init__.py`,
clone-based): the webhook-event data model, the pure label helpers, and each
command body as a function from the event plus the responses of the external
world (remote host, subprocess exit code) to an outcome together with the
ordered trace of external calls it performs.
-/

/-- A GitHub label record as it appears in the webhook event JSON: a mapping
with an optional `name` field (`none` models a missing key). -/
structure Label where
  name : Option String
deriving Repr, DecidableEq

/-- The `pull_request` object of the webhook event, restricted to the fields
the commands read.  Following the dictionary accesses in the code, a missing
`merged` key defaults to `false`, a missing `base.ref` to `""`, and
`merge_commit_sha` may be absent (`none`); `body` and `title` default to
`""`. -/
structure PullRequest where
  number : Nat
  merged : Bool
  merge_commit_sha : Option String
  base_ref : String
  labels : List Label
  body : String
  title : String
deriving Repr, DecidableEq

/-- The webhook event, restricted to the fields the commands read. -/
structure Event where
  pull_request : Option PullRequest
  repo_owner : String
  repo_name : String
  clone_url : String
deriving Repr, DecidableEq

/-- Python truthiness of an optional string: `None` and `""` are falsy. -/
def truthyOpt : Option String → Bool
  | none => false
  | some s => s != ""

/-- Python `s.startswith(pre)`. -/
def startswith (s pre : String) : Bool := pre.toList.isPrefixOf s.toList

/-- Drop the characters of a list up to and including the first `'/'`. -/
def dropThroughSlash : List Char → List Char
  | [] => []
  | c :: cs => if c = '/' then cs else dropThroughSlash cs

/-- Python `s.split("/", 1)[1]` for a string containing a `'/'`: the substring
after the first `'/'`. -/
def afterFirstSlash (s : String) : String := ⟨dropThroughSlash s.toList⟩

/-- Substring test (Python `pat in s`), used to state properties of the
composed error messages. -/
def containsStr (s pat : String) : Bool := decide (pat.toList <:+: s.toList)

namespace Backport

/-- Embedding of `is_pr_merged_in` from the backport module:
`pr.get("merged", False) and pr.get("base", {}).get("ref", "") == base_branch`. -/
def is_pr_merged_in (pr : PullRequest) (base_branch : String) : Bool :=
  pr.merged && (pr.base_ref == base_branch)

/-- Embedding of `find_backport_target` from the backport module: scan the
labels in order, skip falsy (missing or empty) names, and on the first name
starting with `backport/` return `name.split("/", 1)[1]`; `none` if the loop
finishes. -/
def find_backport_target : List Label → Option String
  | [] => none
  | lbl :: rest =>
    match lbl.name with
    | none => find_backport_target rest
    | some name =>
      if name = "" then find_backport_target rest
      else if startswith name "backport/" then some (afterFirstSlash name)
      else find_backport_target rest

/-- Embedding of `get_non_backport_labels` from the backport module: a list
comprehension keeping the label records (not their names) whose name,
defaulting to `""`, does not start with `backport/`. -/
def get_non_backport_labels (labels : List Label) : List Label :=
  labels.filter (fun label => !(startswith (label.name.getD "") "backport/"))

end Backport

/-- An element of the heterogeneous list built by the backport command when
composing the labels of the new pull request: the Python expression
concatenates label records with plain strings. -/
inductive LabelItem where
  | record (label : Label)
  | str (s : String)
deriving Repr, DecidableEq

/-- Embedding of the `backport_labels` expression of the backport command:
`[get_non_backport_labels(labels) + ["backport", "bot"]]`.  The outer brackets
produce a singleton list whose sole element is the mixed list. -/
def backport_labels (labels : List Label) : List (List LabelItem) :=
  [(Backport.get_non_backport_labels labels).map LabelItem.record ++
    [LabelItem.str "backport", LabelItem.str "bot"]]

/-- Embedding of the `backport_body` f-string of the backport command. -/
def backport_body (merge_commit_sha : String) (original_pr_number : Nat)
    (original_body : String) : String :=
  "Backport " ++ merge_commit_sha ++ " from #" ++ toString original_pr_number ++
    ".\n\n___\n\n" ++ original_body

/-- A GitHub REST call made by the API-based backport command, with the
arguments the code passes. -/
inductive ApiCall where
  | getRepo (full_repo_name : String)
  | getBranch (branch : String)
  | getGitRef (ref : String)
  | getGitCommit (sha : String)
  | getCommit (sha : String)
  | getGitTree (sha : String)
  | createGitCommit (message tree_sha parent_sha author : String)
  | createGitRef (ref sha : String)
  | createPull (title body base head : String)
  | addToLabels (args : List (List LabelItem))
deriving Repr, DecidableEq

/-- The responses of the remote host consumed along the API-based command's
path: lookup results and whether the two fallible calls succeed. -/
structure ApiWorld where
  branch_exists : Bool
  target_head_sha : String
  orig_message : String
  orig_tree_sha : String
  orig_author : String
  new_commit_sha : String
  create_ref_ok : Bool
deriving Repr, DecidableEq

/-- How a run of the API-based backport command ends. -/
inductive BackportOutcome where
  | notCI
  | noPR
  | notMerged
  | noLabel
  | branchMissing
  | refCreateFailed
  | success
deriving Repr, DecidableEq

/-- Step-by-step embedding of `cmd` from the backport module: the outcome and
the ordered list of GitHub API calls performed. -/
def Backport.run (in_ci : Bool) (event : Event) (w : ApiWorld) :
    BackportOutcome × List ApiCall :=
  if !in_ci then (.notCI, [])
  else
    match event.pull_request with
    | none => (.noPR, [])
    | some pr =>
      if !(Backport.is_pr_merged_in pr "main") || !(truthyOpt pr.merge_commit_sha) then
        (.notMerged, [])
      else
        match Backport.find_backport_target pr.labels with
        | none => (.noLabel, [])
        | some target_branch_name =>
          if target_branch_name = "" then (.noLabel, [])
          else
            let merge_commit_sha := pr.merge_commit_sha.getD ""
            let full_repo_name := event.repo_owner ++ "/" ++ event.repo_name
            let calls₁ := [ApiCall.getRepo full_repo_name, ApiCall.getBranch target_branch_name]
            if !w.branch_exists then (.branchMissing, calls₁)
            else
              let backport_branch_name :=
                "backport/" ++ target_branch_name ++ "/backport-" ++ toString pr.number ++
                  "-to-" ++ target_branch_name
              let calls₂ := calls₁ ++
                [ApiCall.getGitRef ("heads/" ++ target_branch_name),
                 ApiCall.getGitCommit w.target_head_sha,
                 ApiCall.getCommit merge_commit_sha,
                 ApiCall.getGitTree w.orig_tree_sha,
                 ApiCall.createGitCommit w.orig_message w.orig_tree_sha w.target_head_sha
                   w.orig_author,
                 ApiCall.createGitRef ("refs/" ++ backport_branch_name) w.new_commit_sha]
              if !w.create_ref_ok then (.refCreateFailed, calls₂)
              else
                (.success, calls₂ ++
                  [ApiCall.createPull ("[Backport " ++ target_branch_name ++ "] " ++ pr.title)
                     (backport_body merge_commit_sha pr.number pr.body)
                     target_branch_name backport_branch_name,
                   ApiCall.addToLabels (backport_labels pr.labels)])

namespace CherryPick

/-- Embedding of `find_backport_target` from the cherry_pick module (the
function body is textually identical to the one in the backport module). -/
def find_backport_target : List Label → Option String
  | [] => none
  | lbl :: rest =>
    match lbl.name with
    | none => find_backport_target rest
    | some name =>
      if name = "" then find_backport_target rest
      else if startswith name "backport/" then some (afterFirstSlash name)
      else find_backport_target rest

/-- Embedding of `get_non_backport_labels` from the cherry_pick module: an
explicit loop collecting label names, skipping falsy names and
`backport/`-prefixed names. -/
def get_non_backport_labels : List Label → List String
  | [] => []
  | label :: rest =>
    let name := label.name.getD ""
    if name = "" then get_non_backport_labels rest
    else if startswith name "backport/" then get_non_backport_labels rest
    else name :: get_non_backport_labels rest

/-- Embedding of the `worktree_path` f-string: `f".worktrees/backport-${base}"`
keeps the literal `$` (the f-string substitutes `{base}` only). -/
def worktree_path (base : String) : String := ".worktrees/backport-$" ++ base

/-- Embedding of the conflict error message the cherry_pick command passes to
`app.abort` when `git cherry-pick` fails. -/
def cherry_pick_error_message (merge_commit_sha base head : String) : String :=
  "Failed to cherry-pick " ++ merge_commit_sha ++
    "\nTo backport manually, run these commands in your terminal:\n```bash\n# Fetch latest updates from GitHub\ngit fetch\n# Create a new working tree\ngit worktree add " ++
    worktree_path base ++ " " ++ base ++
    "\n# Navigate to the new working tree\ncd " ++ worktree_path base ++
    "\n# Create a new branch\ngit switch --create " ++ head ++
    "\n# Cherry-pick the merged commit of this pull request and resolve the conflicts\ngit cherry-pick -x --mainline 1 " ++
    merge_commit_sha ++
    "\n# Push it to GitHub\ngit push --set-upstream origin " ++ head ++
    "\n# Go back to the original working tree\ncd ../..\n# Delete the working tree\ngit worktree remove " ++
    worktree_path base

end CherryPick

/-- One subprocess invocation: the argv list and the optional working
directory (`cwd=` keyword of the calls in the cherry_pick command). -/
structure GitCmd where
  argv : List String
  cwd : Option String
deriving Repr, DecidableEq

/-- How a run of the clone-based cherry-pick command ends; `aborted` carries
the message passed to `app.abort`. -/
inductive CherryPickOutcome where
  | notCI
  | noPR
  | notMerged
  | noLabel
  | aborted (msg : String)
  | success
deriving Repr, DecidableEq

/-- Step-by-step embedding of `cmd` from the cherry_pick module: the outcome,
the ordered list of subprocess invocations, and the lines appended to the
`GITHUB_OUTPUT` file. -/
def CherryPick.run (in_ci : Bool) (event : Event) (github_token : Option String)
    (cherry_pick_exit : Nat) : CherryPickOutcome × List GitCmd × List String :=
  if !in_ci then (.notCI, [], [])
  else
    match event.pull_request with
    | none => (.noPR, [], [])
    | some pr =>
      if !pr.merged || !(truthyOpt pr.merge_commit_sha) then (.notMerged, [], [])
      else
        match CherryPick.find_backport_target pr.labels with
        | none => (.noLabel, [], [])
        | some base =>
          if base = "" then (.noLabel, [], [])
          else if !(truthyOpt github_token) then (.aborted "GITHUB_TOKEN is not set", [], [])
          else
            let token := github_token.getD ""
            let merge_commit_sha := pr.merge_commit_sha.getD ""
            let repo_name := event.repo_name
            let auth_url :=
              event.clone_url.replace "https://" ("https://x-access-token:" ++ token ++ "@")
            let head := "backport-" ++ toString pr.number ++ "-to-" ++ base
            let cmds₁ : List GitCmd :=
              [⟨["git", "clone", auth_url], none⟩,
               ⟨["git", "config", "--global", "user.email",
                 "github-actions[bot]@users.noreply.github.com"], none⟩,
               ⟨["git", "config", "--global", "user.name", "github-actions[bot]"], none⟩,
               ⟨["git", "switch", base], some repo_name⟩,
               ⟨["git", "switch", "-c", head], some repo_name⟩,
               ⟨["git", "cherry-pick", "-x", merge_commit_sha], some repo_name⟩]
            if cherry_pick_exit != 0 then
              (.aborted (CherryPick.cherry_pick_error_message merge_commit_sha base head),
               cmds₁ ++ [⟨["git", "cherry-pick", "--abort"], some repo_name⟩], [])
            else
              let original_labels := CherryPick.get_non_backport_labels pr.labels
              let outputs :=
                (if pr.number != 0 then ["pr_number=" ++ toString pr.number ++ "\n"] else []) ++
                (if base != "" then ["base=" ++ base ++ "\n"] else []) ++
                (if head != "" then ["head=" ++ head ++ "\n"] else []) ++
                (if original_labels != [] then
                  ["original_labels=" ++ String.intercalate "," original_labels ++ "\n"]
                 else []) ++
                (if pr.title != "" then
                  ["original_title<<EOF\n" ++ pr.title ++ "\nEOF\n"]
                 else []) ++
                (if pr.body != "" then
                  ["original_body<<EOF\n" ++ pr.body ++ "\nEOF\n"]
                 else [])
              (.success,
               cmds₁ ++ [⟨["git", "push", "--set-upstream", "origin", head], some repo_name⟩],
               outputs)

/-- Specification-side contract of the label-target extraction (spec 4.1): the
substring after the first `/` of the first label whose name starts with
`backport/`, skipping records with missing or empty names, `none` if absent. -/
def findBackportTarget_spec (labels : List Label) : Option String :=
  (((labels.filterMap Label.name).filter (fun n => n != "")).find?
    (fun n => startswith n "backport/")).map afterFirstSlash

/-- Specification-side contract of the label filter (spec 4.1): all label
names that do not start with `backport/`, preserving order, dropping missing
or empty names. -/
def filterNonBackportTargetLabels_spec (labels : List Label) : List String :=
  ((labels.filterMap Label.name).filter (fun n => n != "")).filter
    (fun n => !(startswith n "backport/"))

/-- Sample labels used by concrete witnesses. -/
def sampleLabels : List Label := [{ name := some "bug" }, { name := some "backport/release-3" }]

/-- Sample pull request used by concrete witnesses. -/
def samplePR : PullRequest :=
  { number := 42, merged := true, merge_commit_sha := some "abc123", base_ref := "main",
    labels := sampleLabels, body := "original body", title := "original title" }

/-- Sample event wrapping a pull request, used by concrete witnesses. -/
def sampleEvent (pr : PullRequest) : Event :=
  { pull_request := some pr, repo_owner := "octo", repo_name := "repo",
    clone_url := "https://example.com/repo.git" }

/-- Sample remote-host responses used by concrete witnesses. -/
def sampleWorld : ApiWorld :=
  { branch_exists := true, target_head_sha := "t0", orig_message := "msg",
    orig_tree_sha := "tree0", orig_author := "author", new_commit_sha := "new0",
    create_ref_ok := true }

/-- Sample pull request whose first backport-prefixed label is exactly
`backport/`, used by the witness of the slash-only edge case. -/
def slashOnlyPR : PullRequest :=
  { samplePR with
    labels := [{ name := some "bug" }, { name := some "backport/" },
               { name := some "backport/release-3" }] }

/-! ### Helper lemmas -/

theorem find_backport_eq_spec (labels : List Label) :
    Backport.find_backport_target labels = findBackportTarget_spec labels := by
  induction labels with
  | nil => rfl
  | cons lbl rest ih =>
    cases hname : lbl.name with
    | none =>
      simpa [Backport.find_backport_target, findBackportTarget_spec, hname] using ih
    | some n =>
      by_cases hn : n = ""
      · subst hn
        simpa [Backport.find_backport_target, findBackportTarget_spec, hname] using ih
      · by_cases hbp : startswith n "backport/" = true
        · simp [Backport.find_backport_target, findBackportTarget_spec, hname, hn, hbp]
        · simpa [Backport.find_backport_target, findBackportTarget_spec, hname, hn, hbp]
            using ih

theorem find_cherry_eq_backport (labels : List Label) :
    CherryPick.find_backport_target labels = Backport.find_backport_target labels := by
  induction labels with
  | nil => rfl
  | cons lbl rest ih =>
    unfold CherryPick.find_backport_target Backport.find_backport_target
    cases lbl.name with
    | none => exact ih
    | some n =>
      by_cases hn : n = ""
      · simp [hn, ih]
      · by_cases hbp : startswith n "backport/" = true
        · simp [hn, hbp]
        · simp [hn, hbp, ih]

theorem find_cherry_eq_spec (labels : List Label) :
    CherryPick.find_backport_target labels = findBackportTarget_spec labels := by
  rw [find_cherry_eq_backport, find_backport_eq_spec]

theorem get_non_backport_cherry_eq_spec (labels : List Label) :
    CherryPick.get_non_backport_labels labels = filterNonBackportTargetLabels_spec labels := by
  induction labels with
  | nil => rfl
  | cons lbl rest ih =>
    cases hname : lbl.name with
    | none =>
      simpa [CherryPick.get_non_backport_labels, filterNonBackportTargetLabels_spec, hname]
        using ih
    | some n =>
      by_cases hn : n = ""
      · subst hn
        simpa [CherryPick.get_non_backport_labels, filterNonBackportTargetLabels_spec, hname]
          using ih
      · by_cases hbp : startswith n "backport/" = true
        · simpa [CherryPick.get_non_backport_labels, filterNonBackportTargetLabels_spec,
            hname, hn, hbp] using ih
        · simpa [CherryPick.get_non_backport_labels, filterNonBackportTargetLabels_spec,
            hname, hn, hbp] using ih

theorem containsStr_refl (s : String) : containsStr s s = true := by
  simp only [containsStr, decide_eq_true_eq]
  exact List.infix_refl _

theorem containsStr_append_left (s t pat : String) (h : containsStr s pat = true) :
    containsStr (s ++ t) pat = true := by
  simp only [containsStr, decide_eq_true_eq] at h ⊢
  show pat.toList <:+: s.toList ++ t.toList
  obtain ⟨u, v, huv⟩ := h
  exact ⟨u, v ++ t.toList, by rw [← huv]; simp⟩

theorem containsStr_append_right (s t pat : String) (h : containsStr t pat = true) :
    containsStr (s ++ t) pat = true := by
  simp only [containsStr, decide_eq_true_eq] at h ⊢
  show pat.toList <:+: s.toList ++ t.toList
  obtain ⟨u, v, huv⟩ := h
  exact ⟨s.toList ++ u, v, by rw [← huv]; simp⟩

theorem find_backport_target_append_skip (pre rest : List Label)
    (hpre : ∀ l ∈ pre,
      l.name.getD "" = "" ∨ startswith (l.name.getD "") "backport/" = false) :
    Backport.find_backport_target (pre ++ rest) = Backport.find_backport_target rest := by
  induction pre with
  | nil => rfl
  | cons l pre ih =>
    have hl := hpre l (List.mem_cons_self l pre)
    have htail := fun x hx => hpre x (List.mem_cons_of_mem l hx)
    cases hname : l.name with
    | none =>
      simpa [Backport.find_backport_target, hname] using ih htail
    | some n =>
      rw [hname] at hl
      simp only [Option.getD_some] at hl
      rcases hl with h | h
      · simpa [Backport.find_backport_target, hname, h] using ih htail
      · by_cases hn : n = ""
        · simpa [Backport.find_backport_target, hname, hn] using ih htail
        · simpa [Backport.find_backport_target, hname, hn, h] using ih htail

/-! ### Claims -/

/-- C2: for every ordered sequence of label records, both modules'
`find_backport_target` return the substring after the first `/` of the first
label whose name starts with `backport/` (first match wins, records with
missing or empty names are skipped), and `none` when no such label exists. -/
theorem claim2_find_target_contract (labels : List Label) :
    Backport.find_backport_target labels = findBackportTarget_spec labels ∧
    CherryPick.find_backport_target labels = findBackportTarget_spec labels :=
  ⟨find_backport_eq_spec labels, find_cherry_eq_spec labels⟩

/-- C3 counterexample: the backport module's `get_non_backport_labels` does
not drop records with an empty name — on `[{"name": ""}]` the claimed result
is the empty list, but the code keeps the record. -/
theorem claim3_counterexample :
    Backport.get_non_backport_labels [{ name := some "" }] ≠ [] := by decide

/-- C3 amended: the cherry_pick module's helper returns exactly the label
names that do not start with `backport/`, preserving order and dropping
missing or empty names; the backport module's helper instead returns the
label records themselves (not name strings), keeping records with missing or
empty names, though no returned record's name starts with `backport/`. -/
theorem claim3_amended (labels : List Label) :
    CherryPick.get_non_backport_labels labels = filterNonBackportTargetLabels_spec labels ∧
    Backport.get_non_backport_labels labels =
      labels.filter (fun label => !(startswith (label.name.getD "") "backport/")) ∧
    (Backport.get_non_backport_labels labels).all
      (fun label => !(startswith (label.name.getD "") "backport/")) = true := by
  refine ⟨get_non_backport_cherry_eq_spec labels, rfl, ?_⟩
  simp only [List.all_eq_true]
  intro l hl
  exact (List.mem_filter.mp hl).2

/-- C4: at a concrete input, the labels value the backport command passes to
`add_to_labels` is a singleton list whose sole element is a list mixing the
non-backport label records with the strings `"backport"` and `"bot"` — not
the flat three-element collection of label names the claim describes. -/
theorem claim4_nested_labels_arg :
    backport_labels [{ name := some "bug" }, { name := some "backport/release-3" }] =
      [[LabelItem.record { name := some "bug" },
        LabelItem.str "backport", LabelItem.str "bot"]] ∧
    (backport_labels [{ name := some "bug" }, { name := some "backport/release-3" }]).length
      = 1 := by
  constructor
  · decide
  · decide

/-- C5 counterexample: the composed backport PR body is not the preamble
immediately followed by the original body — the code inserts a horizontal
rule between them, refuting the claim at a concrete input. -/
theorem claim5_counterexample :
    backport_body "abc123" 42 "B" ≠ "Backport abc123 from #42." ++ "B" := by decide

/-- C5 amended: the composed backport PR body is exactly the preamble
`Backport <sha> from #<n>.`, then the separator consisting of a blank line, a
`___` horizontal rule and another blank line, then the original body
unmodified, for every SHA, PR number and original body. -/
theorem claim5_amended (sha : String) (n : Nat) (b : String) :
    backport_body sha n b =
      ("Backport " ++ sha ++ " from #" ++ toString n ++ ".") ++ ("\n\n___\n\n" ++ b) := by
  have hlit : ("." : String) ++ "\n\n___\n\n" = ".\n\n___\n\n" := rfl
  simp only [backport_body, String.append_assoc]
  rw [← String.append_assoc "." "\n\n___\n\n" b, hlit]

/-- C10: the two `find_backport_target` functions, one defined in the
backport module and one in the cherry_pick module, are extensionally equal. -/
theorem claim10_find_target_equiv (labels : List Label) :
    Backport.find_backport_target labels = CherryPick.find_backport_target labels :=
  (find_cherry_eq_backport labels).symm

/-- C1: for both command variants, if the event's pull request has
`merged == false`, or its merge commit SHA is missing or empty, the command
stops before any remote or local mutation: the API-based run performs no
GitHub API call at all, and the clone-based run invokes no git subprocess and
writes no output line. -/
theorem claim1_guard_short_circuits (in_ci : Bool) (event : Event) (w : ApiWorld)
    (github_token : Option String) (cherry_pick_exit : Nat) (pr : PullRequest)
    (hpr : event.pull_request = some pr)
    (h : pr.merged = false ∨ truthyOpt pr.merge_commit_sha = false) :
    (Backport.run in_ci event w).2 = [] ∧
    (CherryPick.run in_ci event github_token cherry_pick_exit).2.1 = [] ∧
    (CherryPick.run in_ci event github_token cherry_pick_exit).2.2 = [] := by
  cases in_ci with
  | false => simp [Backport.run, CherryPick.run]
  | true =>
    rcases h with h | h <;>
      simp [Backport.run, CherryPick.run, Backport.is_pr_merged_in, hpr, h]

/-- Witness for C1 at a concrete unmerged pull-request event. -/
theorem claim1_witness :
    (Backport.run true (sampleEvent { samplePR with merged := false }) sampleWorld).2 = [] ∧
    (CherryPick.run true (sampleEvent { samplePR with merged := false })
      (some "tok") 1).2.1 = [] ∧
    (CherryPick.run true (sampleEvent { samplePR with merged := false })
      (some "tok") 1).2.2 = [] :=
  claim1_guard_short_circuits true (sampleEvent { samplePR with merged := false }) sampleWorld
    (some "tok") 1 { samplePR with merged := false } rfl (Or.inl rfl)

set_option maxRecDepth 20000 in
/-- C6: whenever the `git cherry-pick` subprocess exits nonzero, the
clone-based command runs `git cherry-pick --abort` and aborts the run with a
message containing the literal merge commit SHA and the `git worktree add`
recovery snippet (with fetch, switch, `cherry-pick --mainline 1`, push and
cleanup commands), and no `git push` subprocess is ever invoked. -/
theorem claim6_conflict_recovery (event : Event) (pr : PullRequest) (tok : String)
    (cherry_pick_exit : Nat) (base : String)
    (hpr : event.pull_request = some pr)
    (hm : pr.merged = true)
    (hsha : truthyOpt pr.merge_commit_sha = true)
    (hbt : CherryPick.find_backport_target pr.labels = some base)
    (hbase : base ≠ "")
    (htok : tok ≠ "")
    (hexit : cherry_pick_exit ≠ 0) :
    ∃ msg,
      (CherryPick.run true event (some tok) cherry_pick_exit).1 =
        CherryPickOutcome.aborted msg ∧
      containsStr msg (pr.merge_commit_sha.getD "") = true ∧
      containsStr msg "git fetch" = true ∧
      containsStr msg "git worktree add" = true ∧
      containsStr msg "git switch --create" = true ∧
      containsStr msg "git cherry-pick -x --mainline 1" = true ∧
      containsStr msg "git push --set-upstream origin" = true ∧
      containsStr msg "git worktree remove" = true ∧
      (⟨["git", "cherry-pick", "--abort"], some event.repo_name⟩ : GitCmd) ∈
        (CherryPick.run true event (some tok) cherry_pick_exit).2.1 ∧
      (∀ c ∈ (CherryPick.run true event (some tok) cherry_pick_exit).2.1,
        c.argv.get? 1 ≠ some "push") := by
  have htok' : truthyOpt (some tok) = true := by simp [truthyOpt, htok]
  have hrun : CherryPick.run true event (some tok) cherry_pick_exit =
      (CherryPickOutcome.aborted
        (CherryPick.cherry_pick_error_message (pr.merge_commit_sha.getD "") base
          ("backport-" ++ toString pr.number ++ "-to-" ++ base)),
       [⟨["git", "clone",
           event.clone_url.replace "https://" ("https://x-access-token:" ++ tok ++ "@")],
          none⟩,
        ⟨["git", "config", "--global", "user.email",
          "github-actions[bot]@users.noreply.github.com"], none⟩,
        ⟨["git", "config", "--global", "user.name", "github-actions[bot]"], none⟩,
        ⟨["git", "switch", base], some event.repo_name⟩,
        ⟨["git", "switch", "-c", "backport-" ++ toString pr.number ++ "-to-" ++ base],
          some event.repo_name⟩,
        ⟨["git", "cherry-pick", "-x", pr.merge_commit_sha.getD ""], some event.repo_name⟩,
        ⟨["git", "cherry-pick", "--abort"], some event.repo_name⟩], []) := by
    simp [CherryPick.run, hpr, hm, hsha, hbt, hbase, htok', hexit]
  refine ⟨CherryPick.cherry_pick_error_message (pr.merge_commit_sha.getD "") base
      ("backport-" ++ toString pr.number ++ "-to-" ++ base),
    ?_, ?_, ?_, ?_, ?_, ?_, ?_, ?_, ?_, ?_⟩
  · rw [hrun]
  · unfold CherryPick.cherry_pick_error_message
    iterate 14 apply containsStr_append_left
    apply containsStr_append_right
    exact containsStr_refl _
  · unfold CherryPick.cherry_pick_error_message
    iterate 13 apply containsStr_append_left
    apply containsStr_append_right
    decide
  · unfold CherryPick.cherry_pick_error_message
    iterate 13 apply containsStr_append_left
    apply containsStr_append_right
    decide
  · unfold CherryPick.cherry_pick_error_message
    iterate 7 apply containsStr_append_left
    apply containsStr_append_right
    decide
  · unfold CherryPick.cherry_pick_error_message
    iterate 5 apply containsStr_append_left
    apply containsStr_append_right
    decide
  · unfold CherryPick.cherry_pick_error_message
    iterate 3 apply containsStr_append_left
    apply containsStr_append_right
    decide
  · unfold CherryPick.cherry_pick_error_message
    iterate 1 apply containsStr_append_left
    apply containsStr_append_right
    decide
  · rw [hrun]
    simp
  · rw [hrun]
    intro c hc
    simp only [List.mem_cons, List.not_mem_nil, or_false] at hc
    rcases hc with rfl | rfl | rfl | rfl | rfl | rfl | rfl <;> simp [List.get?]

/-- Witness for C6 at a concrete conflicting cherry-pick run. -/
theorem claim6_witness :
    ∃ msg,
      (CherryPick.run true (sampleEvent samplePR) (some "tok") 1).1 =
        CherryPickOutcome.aborted msg ∧
      containsStr msg (samplePR.merge_commit_sha.getD "") = true ∧
      containsStr msg "git fetch" = true ∧
      containsStr msg "git worktree add" = true ∧
      containsStr msg "git switch --create" = true ∧
      containsStr msg "git cherry-pick -x --mainline 1" = true ∧
      containsStr msg "git push --set-upstream origin" = true ∧
      containsStr msg "git worktree remove" = true ∧
      (⟨["git", "cherry-pick", "--abort"], some (sampleEvent samplePR).repo_name⟩ : GitCmd) ∈
        (CherryPick.run true (sampleEvent samplePR) (some "tok") 1).2.1 ∧
      (∀ c ∈ (CherryPick.run true (sampleEvent samplePR) (some "tok") 1).2.1,
        c.argv.get? 1 ≠ some "push") :=
  claim6_conflict_recovery (sampleEvent samplePR) samplePR "tok" 1 "release-3" rfl rfl
    (by decide) (by decide) (by decide) (by decide) (by decide)

/-- C7: along the happy path, the clone-based command both creates and pushes
the branch named exactly `backport-<prNumber>-to-<target>`, while the
API-based command creates the ref
`refs/backport/<target>/backport-<prNumber>-to-<target>` and opens the pull
request titled `[Backport <target>] <original title>`. -/
theorem claim7_naming_conventions (event : Event) (pr : PullRequest) (w : ApiWorld)
    (tok t : String)
    (hpr : event.pull_request = some pr)
    (hm : pr.merged = true)
    (hmain : pr.base_ref = "main")
    (hsha : truthyOpt pr.merge_commit_sha = true)
    (hbt : Backport.find_backport_target pr.labels = some t)
    (ht : t ≠ "")
    (htok : tok ≠ "")
    (hbranch : w.branch_exists = true)
    (href : w.create_ref_ok = true) :
    ApiCall.createGitRef
        ("refs/" ++ ("backport/" ++ t ++ "/backport-" ++ toString pr.number ++ "-to-" ++ t))
        w.new_commit_sha ∈ (Backport.run true event w).2 ∧
    ApiCall.createPull ("[Backport " ++ t ++ "] " ++ pr.title)
        (backport_body (pr.merge_commit_sha.getD "") pr.number pr.body) t
        ("backport/" ++ t ++ "/backport-" ++ toString pr.number ++ "-to-" ++ t) ∈
      (Backport.run true event w).2 ∧
    (⟨["git", "switch", "-c", "backport-" ++ toString pr.number ++ "-to-" ++ t],
        some event.repo_name⟩ : GitCmd) ∈ (CherryPick.run true event (some tok) 0).2.1 ∧
    (⟨["git", "push", "--set-upstream", "origin",
        "backport-" ++ toString pr.number ++ "-to-" ++ t],
        some event.repo_name⟩ : GitCmd) ∈ (CherryPick.run true event (some tok) 0).2.1 := by
  have hbt' : CherryPick.find_backport_target pr.labels = some t :=
    (find_cherry_eq_backport pr.labels).trans hbt
  have htok' : truthyOpt (some tok) = true := by simp [truthyOpt, htok]
  have hmerge : Backport.is_pr_merged_in pr "main" = true := by
    simp [Backport.is_pr_merged_in, hm, hmain]
  refine ⟨?_, ?_, ?_, ?_⟩ <;>
    simp [Backport.run, CherryPick.run, hpr, hm, hsha, hbt, hbt', ht, htok', hbranch,
      href, hmerge]

/-- Witness for C7 at a concrete merged event labelled `backport/release-3`. -/
theorem claim7_witness :
    ApiCall.createGitRef
        ("refs/" ++ ("backport/" ++ "release-3" ++ "/backport-" ++
          toString samplePR.number ++ "-to-" ++ "release-3"))
        sampleWorld.new_commit_sha ∈ (Backport.run true (sampleEvent samplePR) sampleWorld).2 ∧
    ApiCall.createPull ("[Backport " ++ "release-3" ++ "] " ++ samplePR.title)
        (backport_body (samplePR.merge_commit_sha.getD "") samplePR.number samplePR.body)
        "release-3"
        ("backport/" ++ "release-3" ++ "/backport-" ++ toString samplePR.number ++
          "-to-" ++ "release-3") ∈
      (Backport.run true (sampleEvent samplePR) sampleWorld).2 ∧
    (⟨["git", "switch", "-c",
        "backport-" ++ toString samplePR.number ++ "-to-" ++ "release-3"],
        some (sampleEvent samplePR).repo_name⟩ : GitCmd) ∈
      (CherryPick.run true (sampleEvent samplePR) (some "tok") 0).2.1 ∧
    (⟨["git", "push", "--set-upstream", "origin",
        "backport-" ++ toString samplePR.number ++ "-to-" ++ "release-3"],
        some (sampleEvent samplePR).repo_name⟩ : GitCmd) ∈
      (CherryPick.run true (sampleEvent samplePR) (some "tok") 0).2.1 :=
  claim7_naming_conventions (sampleEvent samplePR) samplePR sampleWorld "tok" "release-3"
    rfl rfl rfl (by decide) (by decide) (by decide) (by decide) rfl rfl

/-- C8: with a pull request present, the API-based command proceeds past its
merge guard exactly when the PR is merged, its base branch ref is `main`, and
the merge commit SHA is truthy; the clone-based command proceeds past the
same guard exactly when the PR is merged and the SHA is truthy, with no
restriction on the base branch ref. -/
theorem claim8_guard_asymmetry (event : Event) (pr : PullRequest) (w : ApiWorld)
    (github_token : Option String) (cherry_pick_exit : Nat)
    (hpr : event.pull_request = some pr) :
    ((Backport.run true event w).1 ≠ BackportOutcome.notMerged ↔
      (pr.merged = true ∧ pr.base_ref = "main" ∧ truthyOpt pr.merge_commit_sha = true)) ∧
    ((CherryPick.run true event github_token cherry_pick_exit).1 ≠
        CherryPickOutcome.notMerged ↔
      (pr.merged = true ∧ truthyOpt pr.merge_commit_sha = true)) := by
  constructor
  · by_cases hm : pr.merged = true
    · by_cases hr : pr.base_ref = "main"
      · by_cases hs : truthyOpt pr.merge_commit_sha = true
        · simp only [hm, hr, hs, and_self, iff_true, true_and]
          rcases hfind : Backport.find_backport_target pr.labels with _ | t
          · simp [Backport.run, hpr, Backport.is_pr_merged_in, hm, hr, hs, hfind]
          · by_cases hts : t = "" <;>
              by_cases hbe : w.branch_exists = true <;>
              by_cases hcr : w.create_ref_ok = true <;>
              simp [Backport.run, hpr, Backport.is_pr_merged_in, hm, hr, hs, hfind, hts,
                hbe, hcr]
        · rw [Bool.not_eq_true] at hs
          simp [Backport.run, hpr, Backport.is_pr_merged_in, hm, hr, hs]
      · have hr' : (pr.base_ref == "main") = false := beq_eq_false_iff_ne.mpr hr
        simp [Backport.run, hpr, Backport.is_pr_merged_in, hm, hr, hr']
    · rw [Bool.not_eq_true] at hm
      simp [Backport.run, hpr, Backport.is_pr_merged_in, hm]
  · by_cases hm : pr.merged = true
    · by_cases hs : truthyOpt pr.merge_commit_sha = true
      · simp only [hm, hs, and_self, iff_true]
        rcases hfind : CherryPick.find_backport_target pr.labels with _ | t
        · simp [CherryPick.run, hpr, hm, hs, hfind]
        · by_cases hts : t = "" <;>
            by_cases htk : truthyOpt github_token = true <;>
            by_cases hex : cherry_pick_exit = 0 <;>
            simp [CherryPick.run, hpr, hm, hs, hfind, hts, htk, hex]
      · rw [Bool.not_eq_true] at hs
        simp [CherryPick.run, hpr, hm, hs]
    · rw [Bool.not_eq_true] at hm
      simp [CherryPick.run, hpr, hm]

/-- Witness for C8 at a concrete merged event. -/
theorem claim8_witness :
    ((Backport.run true (sampleEvent samplePR) sampleWorld).1 ≠ BackportOutcome.notMerged ↔
      (samplePR.merged = true ∧ samplePR.base_ref = "main" ∧
        truthyOpt samplePR.merge_commit_sha = true)) ∧
    ((CherryPick.run true (sampleEvent samplePR) (some "tok") 0).1 ≠
        CherryPickOutcome.notMerged ↔
      (samplePR.merged = true ∧ truthyOpt samplePR.merge_commit_sha = true)) :=
  claim8_guard_asymmetry (sampleEvent samplePR) samplePR sampleWorld (some "tok") 0 rfl

/-- C9: a label named exactly `backport/` yields the empty-string target,
which both commands treat as no backport label at all: on an otherwise valid
merged event whose first backport-prefixed label is exactly `backport/`, both
commands stop with the no-label outcome, performing no API call, no
subprocess invocation and writing no output. -/
theorem claim9_slash_only_label (event : Event) (pr : PullRequest) (w : ApiWorld)
    (github_token : Option String) (cherry_pick_exit : Nat) (pre post : List Label)
    (hpr : event.pull_request = some pr)
    (hm : pr.merged = true)
    (hmain : pr.base_ref = "main")
    (hsha : truthyOpt pr.merge_commit_sha = true)
    (hlabels : pr.labels = pre ++ { name := some "backport/" } :: post)
    (hpre : ∀ l ∈ pre,
      l.name.getD "" = "" ∨ startswith (l.name.getD "") "backport/" = false) :
    Backport.find_backport_target pr.labels = some "" ∧
    Backport.run true event w = (BackportOutcome.noLabel, []) ∧
    CherryPick.run true event github_token cherry_pick_exit =
      (CherryPickOutcome.noLabel, [], []) := by
  have hfind : Backport.find_backport_target pr.labels = some "" := by
    rw [hlabels, find_backport_target_append_skip pre _ hpre]
    have h0 : ¬(("backport/" : String) = "") := by decide
    have h1 : startswith "backport/" "backport/" = true := by decide
    have h2 : afterFirstSlash "backport/" = "" := by decide
    simp [Backport.find_backport_target, h0, h1, h2]
  have hfind' : CherryPick.find_backport_target pr.labels = some "" :=
    (find_cherry_eq_backport pr.labels).trans hfind
  have hmerge : Backport.is_pr_merged_in pr "main" = true := by
    simp [Backport.is_pr_merged_in, hm, hmain]
  refine ⟨hfind, ?_, ?_⟩
  · simp [Backport.run, hpr, hmerge, hsha, hfind]
  · simp [CherryPick.run, hpr, hm, hsha, hfind']

/-- Witness for C9 at a concrete event whose labels are `bug`, `backport/`
and `backport/release-3`, in that order. -/
theorem claim9_witness :
    Backport.find_backport_target slashOnlyPR.labels = some "" ∧
    Backport.run true (sampleEvent slashOnlyPR) sampleWorld = (BackportOutcome.noLabel, []) ∧
    CherryPick.run true (sampleEvent slashOnlyPR) (some "tok") 0 =
      (CherryPickOutcome.noLabel, [], []) :=
  claim9_slash_only_label (sampleEvent slashOnlyPR) slashOnlyPR sampleWorld (some "tok") 0
    [{ name := some "bug" }] [{ name := some "backport/release-3" }] rfl rfl rfl
    (by decide) rfl (by decide)
